import Mathlib

/-!
Verification of the response-normalization and command-validation logic of the
Free-Fire stats Discord bot (`bot.py`, the "variant 2" stats bot).

The bot's data is dynamically-typed parsed JSON.  We embed Python/JSON values
as the inductive type `Val` (JSON numbers, whether int or float, are modelled
as exact rationals; Python `bool` is kept separate because Python treats it as
a number in arithmetic but it is a distinct JSON value).  Operations that can
raise a Python exception (attribute access on a non-dict, ordering/arithmetic
on non-numbers) are modelled in `Except String`; the `try/except` wrapper of
`parse_player_data` is the `wrapParse` catch at the top level.

`str.isdigit` is modelled at the decimal-digit level (every character is one
of 0..9) and `str.upper` by `pyUpper` (provably `String.toUpper`);
`round(x, 2)` is modelled as exact round-half-to-even of `100 * x` (Python's
`round` on floats is round-half-to-even up to binary-float representation).
-/

namespace FreeFire

/-- A parsed JSON / Python value: `None`, `bool`, number (int or float,
modelled as an exact rational), string, list, or dict (association list,
first binding wins on lookup). -/
inductive Val where
  | vNull : Val
  | vBool : Bool → Val
  | vNum : ℚ → Val
  | vStr : String → Val
  | vList : List Val → Val
  | vDict : List (String × Val) → Val

/-- Python `d[k]` lookup on an association list (first binding wins). -/
def lookupD (kvs : List (String × Val)) (k : String) : Option Val :=
  (kvs.find? (fun p => p.1 == k)).map (fun p => p.2)

/-- Python truthiness (`bool(v)`): `None`, `False`, `0`, `""`, `[]`, `{}` are
falsy, everything else truthy.  This is `not data` in `parse_player_data`. -/
def truthy : Val → Bool
  | .vNull => false
  | .vBool b => b
  | .vNum q => q != 0
  | .vStr s => s != ""
  | .vList xs => !xs.isEmpty
  | .vDict kvs => !kvs.isEmpty

/-- `isinstance(v, dict)`. -/
def isDict : Val → Bool
  | .vDict _ => true
  | _ => false

/-- `isinstance(data, dict) and data.get('status') == 'error'`: Python `==`
between a non-string and the string `'error'` is `False`, a missing key gives
`None` which also compares unequal. -/
def statusIsError : Val → Bool
  | .vDict kvs =>
    match lookupD kvs "status" with
    | some (.vStr s) => s == "error"
    | _ => false
  | _ => false

/-- Numeric coercion used by Python ordering, arithmetic and division:
`int`/`float` are numbers and `bool` counts as 0 or 1; anything else raises
`TypeError` (modelled as `none`). -/
def asNum : Val → Option ℚ
  | .vNum q => some q
  | .vBool b => some (if b then 1 else 0)
  | _ => none

/-!
The rational operations of the embedding.  Mathlib's `Rat.add`, `Rat.sub`,
`Rat.mul` and `Rat.inv` are `@[irreducible]`, which blocks evaluation of the
embedded program on concrete inputs by `decide`/`rfl`; we therefore compute
with `mkRat`/`Rat.divInt` (which do reduce) and prove once and for all
(`qsub_eq`, `qmul_eq`, `qdiv_eq`, `halfQ_eq`) that these are exactly the
standard subtraction, multiplication and division of `ℚ`.
-/

/-- Exact rational subtraction, in a kernel-reducible form. -/
def qsub (a b : ℚ) : ℚ := mkRat (a.num * b.den - b.num * a.den) (a.den * b.den)

/-- Exact rational multiplication, in a kernel-reducible form. -/
def qmul (a b : ℚ) : ℚ := mkRat (a.num * b.num) (a.den * b.den)

/-- Exact rational (true) division, in a kernel-reducible form. -/
def qdiv (a b : ℚ) : ℚ := Rat.divInt (a.num * b.den) (a.den * b.num)

/-- The constant 1/2, in a kernel-reducible form. -/
def halfQ : ℚ := mkRat 1 2

/-- Round-half-to-even to an integer (the tie-breaking rule of Python
`round`). -/
def rndHalfEven (q : ℚ) : ℤ :=
  let f : ℤ := q.floor
  let r : ℚ := qsub q (f : ℚ)
  if r < halfQ then f
  else if halfQ < r then f + 1
  else if f % 2 = 0 then f else f + 1

/-- Python `round(x, 2)` modelled exactly on rationals. -/
def round2 (q : ℚ) : ℚ := mkRat (rndHalfEven (qmul q 100)) 100

/-- Python `str.upper()`: upper-case every character.  (`String.toUpper` is
extensionally the same function -- `pyUpper_eq` -- but its `String.mapAux`
does not reduce in the kernel, while this form does.) -/
def pyUpper (s : String) : String := ⟨s.data.map Char.toUpper⟩

/-- `d.get(k, dflt)` on a dict known to be a dict: the sub-object lookups of
`parse_player_data` with their per-field defaults. -/
def fieldOf (kvs : List (String × Val)) (k : String) (dflt : Val) : Val :=
  (lookupD kvs k).getD dflt

/-- `player_data.get(k, {})`: a missing sub-object defaults to an empty
mapping. -/
def subObj (kvs : List (String × Val)) (k : String) : Val :=
  fieldOf kvs k (.vDict [])

/-- The result dict literal of `parse_player_data` (lines 88-110 of `bot.py`)
together with the two derived keys appended at lines 112-119.  The `server`
and `gamemode` arguments are upper-cased exactly where the source does it. -/
def mkRecord (uid server gamemode matchmode : String)
    (name level exp rank_points clan_name clan_level likes
     matches_played kills headshots damage wins top_3 top_6 survival_time : Val)
    (wr kd : ℚ) : Val :=
  .vDict [("uid", .vStr uid), ("server", .vStr (pyUpper server)),
    ("gamemode", .vStr (pyUpper gamemode)), ("matchmode", .vStr matchmode),
    ("name", name), ("level", level), ("exp", exp), ("rank_points", rank_points),
    ("clan_name", clan_name), ("clan_level", clan_level), ("likes", likes),
    ("matches_played", matches_played), ("kills", kills), ("headshots", headshots),
    ("damage", damage), ("wins", wins), ("top_3", top_3), ("top_6", top_6),
    ("survival_time", survival_time), ("win_rate", .vNum wr), ("kd_ratio", .vNum kd)]

/-- The error dict `{"error": msg}` returned on every failure path. -/
def errDict (msg : String) : Val := .vDict [("error", .vStr msg)]

/-- Lines 83-121 of `bot.py`: extract the sub-objects and fields of the
selected player payload, build the result dict, and compute the derived
ratios.  A `.get` on a non-dict sub-object raises `AttributeError`; comparing
or dividing a non-numeric field raises `TypeError`; both are modelled as
`Except.error` and caught by `wrapParse`. -/
def extractRecord (player_data : Val) (uid server gamemode matchmode : String) :
    Except String Val :=
  match player_data with
  | .vDict pkvs =>
    match subObj pkvs "basicInfo", subObj pkvs "clanBasicInfo", subObj pkvs "stats" with
    | .vDict b, .vDict c, .vDict s =>
      let name := fieldOf b "nickname" (.vStr "Unknown")
      let level := fieldOf b "level" (.vNum 0)
      let exp := fieldOf b "exp" (.vNum 0)
      let rank_points := fieldOf b "rankingPoints" (.vNum 0)
      let clan_name := fieldOf c "clanName" (.vStr "No Clan")
      let clan_level := fieldOf c "clanLevel" (.vNum 0)
      let likes := fieldOf b "liked" (.vNum 0)
      let matches_played := fieldOf s "matchesPlayed" (.vNum 0)
      let kills := fieldOf s "kills" (.vNum 0)
      let headshots := fieldOf s "headshots" (.vNum 0)
      let damage := fieldOf s "damage" (.vNum 0)
      let wins := fieldOf s "wins" (.vNum 0)
      let top_3 := fieldOf s "top3" (.vNum 0)
      let top_6 := fieldOf s "top6" (.vNum 0)
      let survival_time := fieldOf s "survivalTime" (.vNum 0)
      match asNum matches_played with
      | none => .error "TypeError: unorderable types in matches_played > 0"
      | some mp =>
        if 0 < mp then
          match asNum wins, asNum kills with
          | some w, some k =>
            .ok (mkRecord uid server gamemode matchmode name level exp rank_points
              clan_name clan_level likes matches_played kills headshots damage wins
              top_3 top_6 survival_time
              (round2 (qmul (qdiv w mp) 100)) (round2 (qdiv k (max (qsub mp w) 1))))
          | _, _ => .error "TypeError: unsupported operand types for division"
        else
          .ok (mkRecord uid server gamemode matchmode name level exp rank_points
            clan_name clan_level likes matches_played kills headshots damage wins
            top_3 top_6 survival_time 0 0)
    | _, _, _ => .error "AttributeError: object has no attribute get"
  | _ => .error "AttributeError: object has no attribute get"

/-- The body of the `try` block of `parse_player_data` (lines 75-121): the
validity check, the `data` to root fallback, then `extractRecord`. -/
def parseCore (data : Val) (uid server gamemode matchmode : String) :
    Except String Val :=
  if !truthy data || (isDict data && statusIsError data) then
    .ok (errDict "No player data found or invalid UID")
  else
    match data with
    | .vDict kvs => extractRecord ((lookupD kvs "data").getD data) uid server gamemode matchmode
    | _ => .error "AttributeError: object has no attribute get"

/-- The `except Exception` clause (lines 123-124): any exception raised
during field extraction becomes the error dict `Data parsing error: ...`. -/
def wrapParse : Except String Val → Val
  | .ok v => v
  | .error e => errDict ("Data parsing error: " ++ e)

/-- `FreeFireAPI.parse_player_data` (lines 73-124 of `bot.py`): total over
every parsed JSON value. -/
def parse_player_data (data : Val) (uid server gamemode matchmode : String) : Val :=
  wrapParse (parseCore data uid server gamemode matchmode)

/-- The outcome of the single HTTP GET issued by `get_player_stats`: a
response with a status code and (for status 200) a parsed JSON body, or one
of the three caught transport-level exceptions. -/
inductive HttpResult where
  | response (status : Nat) (body : Val)
  | clientError (msg : String)
  | timedOut
  | otherExc (msg : String)

/-- `FreeFireAPI.get_player_stats` (lines 45-71 of `bot.py`) as a function of
the HTTP outcome: status 200 hands the body to the normalizer, any other
status yields the status-error dict, and the caught exceptions yield their
error dicts. -/
def get_player_stats (uid server gamemode matchmode : String) (r : HttpResult) : Val :=
  match r with
  | .response st body =>
    if st == 200 then parse_player_data body uid server gamemode matchmode
    else errDict ("API returned status " ++ toString st)
  | .clientError m => errDict ("Network error: " ++ m)
  | .timedOut => errDict "API request timed out"
  | .otherExc m => errDict ("Unexpected error: " ++ m)

/-- Line 35 of `bot.py`: the server allow-list (displayed by `/example`). -/
def SERVERS : List String :=
  ["ind", "bd", "pk", "br", "na", "eu", "me", "tr", "id", "sg", "my", "th", "vn", "ph"]

/-- Line 38 of `bot.py`. -/
def GAME_MODES : List String := ["br", "cs"]

/-- Line 39 of `bot.py`. -/
def MATCH_MODES : List String := ["CAREER", "NORMAL", "RANKED"]

/-- Python `uid.isdigit()`, modelled at the decimal-digit level: non-empty
and every character is one of the ten decimal digits. -/
def pyIsdigit (s : String) : Bool := !s.isEmpty && s.toList.all Char.isDigit

/-- Observable outcome of one `/stats` invocation: the invalid-UID refusal
(lines 149-151, no fetch performed), or the fetch result (line 154). -/
inductive CommandOutcome where
  | invalidUid
  | fetched (result : Val)

/-- The `player_stats` command handler (lines 138-154 of `bot.py`) up to the
point where the fetched result is classified; `r` is the outcome of the HTTP
call the handler would make. -/
def player_stats (uid server gamemode matchmode : String) (r : HttpResult) :
    CommandOutcome :=
  if !pyIsdigit uid || uid.length < 6 then .invalidUid
  else .fetched (get_player_stats uid server gamemode matchmode r)

/-- Field lookup on a result value (the `player_data['name']`-style accesses
of the presenter, and the `"error" in player_data` test at line 156). -/
def getField (v : Val) (k : String) : Option Val :=
  match v with
  | .vDict kvs => lookupD kvs k
  | _ => none

/-- The success record produced from sub-object association lists `b`
(`basicInfo`), `c` (`clanBasicInfo`) and `st` (`stats`): every field is the
corresponding `.get` with its per-field default.  `extractRecord` returns
exactly values of this form. -/
def recordOf (u s g m : String) (b c st : List (String × Val)) (wr kd : ℚ) : Val :=
  mkRecord u s g m
    (fieldOf b "nickname" (.vStr "Unknown")) (fieldOf b "level" (.vNum 0))
    (fieldOf b "exp" (.vNum 0)) (fieldOf b "rankingPoints" (.vNum 0))
    (fieldOf c "clanName" (.vStr "No Clan")) (fieldOf c "clanLevel" (.vNum 0))
    (fieldOf b "liked" (.vNum 0)) (fieldOf st "matchesPlayed" (.vNum 0))
    (fieldOf st "kills" (.vNum 0)) (fieldOf st "headshots" (.vNum 0))
    (fieldOf st "damage" (.vNum 0)) (fieldOf st "wins" (.vNum 0))
    (fieldOf st "top3" (.vNum 0)) (fieldOf st "top6" (.vNum 0))
    (fieldOf st "survivalTime" (.vNum 0)) wr kd

/-- The record produced when every sub-object is missing (or empty): every
field carries its documented default and both ratios are 0. -/
def defaultRecord (u s g m : String) : Val :=
  mkRecord u s g m (.vStr "Unknown") (.vNum 0) (.vNum 0) (.vNum 0) (.vStr "No Clan")
    (.vNum 0) (.vNum 0) (.vNum 0) (.vNum 0) (.vNum 0) (.vNum 0) (.vNum 0) (.vNum 0)
    (.vNum 0) (.vNum 0) 0 0

/-- The 21 keys of a success record, in construction order. -/
def recordKeys : List String :=
  ["uid", "server", "gamemode", "matchmode", "name", "level", "exp", "rank_points",
   "clan_name", "clan_level", "likes", "matches_played", "kills", "headshots",
   "damage", "wins", "top_3", "top_6", "survival_time", "win_rate", "kd_ratio"]

/-- The two disjoint result shapes of the bot's API layer: a failure dict
`{"error": msg}`, or a dict with exactly the 21 record keys and no `error`
key. -/
def resultWellShaped (v : Val) : Prop :=
  (∃ e, v = errDict e) ∨
  (∃ kvs, v = Val.vDict kvs ∧ kvs.map Prod.fst = recordKeys ∧ lookupD kvs "error" = none)

end FreeFire

namespace FreeFire

/-! ### Agreement of the kernel-reducible rational operations with `ℚ` -/

/-- `qsub` is the subtraction of `ℚ`. -/
theorem qsub_eq (a b : ℚ) : qsub a b = a - b := by
  have ha : (a.den : ℚ) ≠ 0 := Nat.cast_ne_zero.mpr a.den_ne_zero
  have hb : (b.den : ℚ) ≠ 0 := Nat.cast_ne_zero.mpr b.den_ne_zero
  unfold qsub
  rw [Rat.mkRat_eq_divInt, Rat.divInt_eq_div]
  conv_rhs => rw [← Rat.num_div_den a, ← Rat.num_div_den b]
  push_cast
  field_simp
  ring

/-- `qmul` is the multiplication of `ℚ`. -/
theorem qmul_eq (a b : ℚ) : qmul a b = a * b := by
  have ha : (a.den : ℚ) ≠ 0 := Nat.cast_ne_zero.mpr a.den_ne_zero
  have hb : (b.den : ℚ) ≠ 0 := Nat.cast_ne_zero.mpr b.den_ne_zero
  unfold qmul
  rw [Rat.mkRat_eq_divInt, Rat.divInt_eq_div]
  conv_rhs => rw [← Rat.num_div_den a, ← Rat.num_div_den b]
  push_cast
  field_simp

/-- `qdiv` is the (true) division of `ℚ`. -/
theorem qdiv_eq (a b : ℚ) : qdiv a b = a / b := by
  unfold qdiv
  rcases eq_or_ne b 0 with hb | hb
  · subst hb
    simp [Rat.divInt_eq_div]
  · have hbn : (b.num : ℚ) ≠ 0 := by
      exact_mod_cast Rat.num_ne_zero.mpr hb
    have ha : (a.den : ℚ) ≠ 0 := Nat.cast_ne_zero.mpr a.den_ne_zero
    have hbd : (b.den : ℚ) ≠ 0 := Nat.cast_ne_zero.mpr b.den_ne_zero
    rw [Rat.divInt_eq_div]
    conv_rhs => rw [← Rat.num_div_den a, ← Rat.num_div_den b]
    push_cast
    field_simp

/-- `halfQ` is `1/2`. -/
theorem halfQ_eq : halfQ = 1 / 2 := by
  unfold halfQ
  rw [Rat.mkRat_eq_divInt, Rat.divInt_eq_div]
  norm_num

/-- `Rat.floor` is the floor of the `FloorRing` structure on `ℚ`. -/
theorem ratFloor_eq (q : ℚ) : q.floor = ⌊q⌋ := rfl

/-- `pyUpper` is `String.toUpper`. -/
theorem pyUpper_eq (s : String) : pyUpper s = s.toUpper :=
  (String.map_eq Char.toUpper s).symm

end FreeFire

namespace FreeFire

/-! ### Structure of the normalizer results -/

/-- Every successful `extractRecord` result is a `recordOf`: the 21-field
record built from the three sub-objects, with the derived ratios determined
by the extracted `matchesPlayed`, `wins` and `kills` exactly as at
lines 112-119 of `bot.py`. -/
theorem extractRecord_ok_shape (pd : Val) (u s g m : String) (v : Val)
    (h : extractRecord pd u s g m = Except.ok v) :
    ∃ pkvs b c st, pd = Val.vDict pkvs ∧
      subObj pkvs "basicInfo" = Val.vDict b ∧
      subObj pkvs "clanBasicInfo" = Val.vDict c ∧
      subObj pkvs "stats" = Val.vDict st ∧
      ∃ mp, asNum (fieldOf st "matchesPlayed" (.vNum 0)) = some mp ∧
        ((¬ 0 < mp ∧ v = recordOf u s g m b c st 0 0) ∨
         (0 < mp ∧ ∃ w k,
            asNum (fieldOf st "wins" (.vNum 0)) = some w ∧
            asNum (fieldOf st "kills" (.vNum 0)) = some k ∧
            v = recordOf u s g m b c st (round2 (qmul (qdiv w mp) 100))
                  (round2 (qdiv k (max (qsub mp w) 1))))) := by
  cases pd with
  | vDict pkvs =>
      simp only [extractRecord] at h
      split at h
      case _ b c st hb hc hst =>
        refine ⟨pkvs, b, c, st, rfl, hb, hc, hst, ?_⟩
        split at h
        case _ => exact Except.noConfusion h
        case _ mp hmp =>
          split at h
          case isTrue hpos =>
            split at h
            case _ w k hw hk =>
              simp only [Except.ok.injEq] at h
              subst h
              exact ⟨mp, hmp, Or.inr ⟨hpos, w, k, hw, hk, rfl⟩⟩
            case _ => exact Except.noConfusion h
          case isFalse hneg =>
            simp only [Except.ok.injEq] at h
            subst h
            exact ⟨mp, hmp, Or.inl ⟨hneg, rfl⟩⟩
      case _ => exact Except.noConfusion h
  | vNull => exact Except.noConfusion h
  | vBool x => exact Except.noConfusion h
  | vNum x => exact Except.noConfusion h
  | vStr x => exact Except.noConfusion h
  | vList x => exact Except.noConfusion h

/-- The try/except split: `parse_player_data` returns the `parseCore` value
when no exception occurs, and the `Data parsing error` dict when one does. -/
theorem parse_split (data : Val) (u s g m : String) :
    (∃ e, parseCore data u s g m = Except.error e ∧
       parse_player_data data u s g m = errDict ("Data parsing error: " ++ e)) ∨
    (∃ v, parseCore data u s g m = Except.ok v ∧ parse_player_data data u s g m = v) := by
  cases hc : parseCore data u s g m with
  | error e => exact Or.inl ⟨e, rfl, by simp [parse_player_data, wrapParse, hc]⟩
  | ok v => exact Or.inr ⟨v, rfl, by simp [parse_player_data, wrapParse, hc]⟩

/-- On a non-empty dict payload whose `status` is not the string `"error"`,
`parseCore` is field extraction on the selected player payload (the value of
the `data` key if present, the root otherwise). -/
theorem parseCore_dict (kvs : List (String × Val)) (u s g m : String)
    (hne : kvs ≠ []) (hst : statusIsError (Val.vDict kvs) = false) :
    parseCore (Val.vDict kvs) u s g m =
      extractRecord ((lookupD kvs "data").getD (Val.vDict kvs)) u s g m := by
  unfold parseCore
  simp [truthy, isDict, hst, List.isEmpty_iff, hne]

/-- A falsy payload, or a dict whose `status` is `"error"`, is rejected with
the fixed message. -/
theorem parseCore_rejected (data : Val) (u s g m : String)
    (h : truthy data = false ∨ (isDict data && statusIsError data) = true) :
    parseCore (data) u s g m = Except.ok (errDict "No player data found or invalid UID") := by
  unfold parseCore
  rcases h with h | h <;> simp [h]

end FreeFire

namespace FreeFire

/-! ### Shape of success records -/

/-- A `recordOf` value is a dict with exactly the 21 record keys and no
`error` key. -/
theorem recordOf_shape (u s g m : String) (b c st : List (String × Val)) (wr kd : ℚ) :
    ∃ kvs, recordOf u s g m b c st wr kd = Val.vDict kvs ∧
      kvs.map Prod.fst = recordKeys ∧ lookupD kvs "error" = none :=
  ⟨_, rfl, rfl, rfl⟩

theorem getField_recordOf_uid (u s g m : String) (b c st : List (String × Val)) (wr kd : ℚ) :
    getField (recordOf u s g m b c st wr kd) "uid" = some (.vStr u) := rfl

theorem getField_recordOf_server (u s g m : String) (b c st : List (String × Val)) (wr kd : ℚ) :
    getField (recordOf u s g m b c st wr kd) "server" = some (.vStr (pyUpper s)) := rfl

theorem getField_recordOf_gamemode (u s g m : String) (b c st : List (String × Val)) (wr kd : ℚ) :
    getField (recordOf u s g m b c st wr kd) "gamemode" = some (.vStr (pyUpper g)) := rfl

theorem getField_recordOf_matchmode (u s g m : String) (b c st : List (String × Val)) (wr kd : ℚ) :
    getField (recordOf u s g m b c st wr kd) "matchmode" = some (.vStr m) := rfl

theorem getField_recordOf_matches (u s g m : String) (b c st : List (String × Val)) (wr kd : ℚ) :
    getField (recordOf u s g m b c st wr kd) "matches_played"
      = some (fieldOf st "matchesPlayed" (.vNum 0)) := rfl

theorem getField_recordOf_wins (u s g m : String) (b c st : List (String × Val)) (wr kd : ℚ) :
    getField (recordOf u s g m b c st wr kd) "wins"
      = some (fieldOf st "wins" (.vNum 0)) := rfl

theorem getField_recordOf_kills (u s g m : String) (b c st : List (String × Val)) (wr kd : ℚ) :
    getField (recordOf u s g m b c st wr kd) "kills"
      = some (fieldOf st "kills" (.vNum 0)) := rfl

theorem getField_recordOf_winrate (u s g m : String) (b c st : List (String × Val)) (wr kd : ℚ) :
    getField (recordOf u s g m b c st wr kd) "win_rate" = some (.vNum wr) := rfl

theorem getField_recordOf_kd (u s g m : String) (b c st : List (String × Val)) (wr kd : ℚ) :
    getField (recordOf u s g m b c st wr kd) "kd_ratio" = some (.vNum kd) := rfl

/-- A result of `parse_player_data` with no `error` key is a success record
of `recordOf` form, with the derived ratios determined by the extracted
`matchesPlayed`, `wins` and `kills` fields. -/
theorem parse_success_shape (data : Val) (u s g m : String)
    (herr : getField (parse_player_data data u s g m) "error" = none) :
    ∃ b c st mp, asNum (fieldOf st "matchesPlayed" (.vNum 0)) = some mp ∧
      ((¬ 0 < mp ∧ parse_player_data data u s g m = recordOf u s g m b c st 0 0) ∨
       (0 < mp ∧ ∃ w k,
          asNum (fieldOf st "wins" (.vNum 0)) = some w ∧
          asNum (fieldOf st "kills" (.vNum 0)) = some k ∧
          parse_player_data data u s g m = recordOf u s g m b c st
            (round2 (qmul (qdiv w mp) 100)) (round2 (qdiv k (max (qsub mp w) 1))))) := by
  rcases parse_split data u s g m with ⟨e, hc, hp⟩ | ⟨v, hc, hp⟩
  · rw [hp] at herr
    exact Option.noConfusion herr
  · unfold parseCore at hc
    split at hc
    · simp only [Except.ok.injEq] at hc
      rw [hp, ← hc] at herr
      exact Option.noConfusion herr
    · split at hc
      case _ kvs =>
        rcases extractRecord_ok_shape _ _ _ _ _ _ hc with
          ⟨pkvs, b, c, st, _, _, _, _, mp, hmp, hcase⟩
        rcases hcase with ⟨hneg, rfl⟩ | ⟨hpos, w, k, hw, hk, rfl⟩
        · exact ⟨b, c, st, mp, hmp, Or.inl ⟨hneg, hp⟩⟩
        · exact ⟨b, c, st, mp, hmp, Or.inr ⟨hpos, w, k, hw, hk, hp⟩⟩
      case _ => exact Except.noConfusion hc

end FreeFire

namespace FreeFire

/-! ### The claims -/

/-- C1 (amended): for every payload accepted by `parse_player_data` (result
has no `error` key), with `mp` the numeric value of the extracted
`matches_played`: if `mp ≤ 0` then `win_rate = 0` and `kd_ratio = 0` with no
division performed, and if `mp > 0` then
`win_rate = round2(wins / mp * 100)`, `deaths = mp - wins` and
`kd_ratio = round2(kills / max(deaths, 1))`.  (The original claim's split at
`mp = 0` is wrong: the code tests `matches_played > 0`, so a negative
`matches_played` also yields the zero ratios -- see the counterexample.) -/
theorem c1_ratio_invariant (data : Val) (u s g m : String) (mval : Val) (mp : ℚ)
    (herr : getField (parse_player_data data u s g m) "error" = none)
    (hm : getField (parse_player_data data u s g m) "matches_played" = some mval)
    (hmn : asNum mval = some mp) :
    (mp ≤ 0 →
      getField (parse_player_data data u s g m) "win_rate" = some (.vNum 0) ∧
      getField (parse_player_data data u s g m) "kd_ratio" = some (.vNum 0)) ∧
    (0 < mp → ∀ wval kval : Val, ∀ w k : ℚ,
      getField (parse_player_data data u s g m) "wins" = some wval →
      asNum wval = some w →
      getField (parse_player_data data u s g m) "kills" = some kval →
      asNum kval = some k →
      getField (parse_player_data data u s g m) "win_rate"
          = some (.vNum (round2 (w / mp * 100))) ∧
      getField (parse_player_data data u s g m) "kd_ratio"
          = some (.vNum (round2 (k / max (mp - w) 1)))) := by
  rcases parse_success_shape data u s g m herr with ⟨b, c, st, mp0, hmp0, hcase⟩
  rcases hcase with ⟨hneg, heq⟩ | ⟨hpos, w0, k0, hw0, hk0, heq⟩
  · rw [heq, getField_recordOf_matches] at hm
    have hmval : mval = fieldOf st "matchesPlayed" (.vNum 0) := (Option.some.inj hm).symm
    rw [hmval] at hmn
    have hmp : mp0 = mp := Option.some.inj (hmp0.symm.trans hmn)
    subst hmp
    refine ⟨fun _ => ?_, fun h => absurd h hneg⟩
    rw [heq, getField_recordOf_winrate, getField_recordOf_kd]
    exact ⟨rfl, rfl⟩
  · rw [heq, getField_recordOf_matches] at hm
    have hmval : mval = fieldOf st "matchesPlayed" (.vNum 0) := (Option.some.inj hm).symm
    rw [hmval] at hmn
    have hmp : mp0 = mp := Option.some.inj (hmp0.symm.trans hmn)
    subst hmp
    refine ⟨fun h => absurd hpos (not_lt.mpr h), fun _ wval kval w k hw hwn hk hkn => ?_⟩
    rw [heq, getField_recordOf_wins] at hw
    rw [heq, getField_recordOf_kills] at hk
    have hwval : wval = fieldOf st "wins" (.vNum 0) := (Option.some.inj hw).symm
    have hkval : kval = fieldOf st "kills" (.vNum 0) := (Option.some.inj hk).symm
    rw [hwval] at hwn
    rw [hkval] at hkn
    have hww : w0 = w := Option.some.inj (hw0.symm.trans hwn)
    have hkk : k0 = k := Option.some.inj (hk0.symm.trans hkn)
    subst hww
    subst hkk
    rw [heq, getField_recordOf_winrate, getField_recordOf_kd]
    rw [qdiv_eq, qmul_eq, qdiv_eq, qsub_eq]
    exact ⟨rfl, rfl⟩

/-- C1 counterexample: the payload with `matchesPlayed = -5`, `wins = 2`,
`kills = 20` is accepted (no `error` key), its `matches_played` is `-5 ≠ 0`,
yet `win_rate` is `0` while the claim's "otherwise" formula
`round(wins / matches_played * 100, 2)` evaluates to `-40 ≠ 0`: the claim's
case split at `matches_played = 0` does not match the code's
`matches_played > 0`. -/
theorem c1_ratio_counterexample :
    getField (parse_player_data (.vDict [("stats", .vDict [("matchesPlayed", .vNum (-5)),
        ("wins", .vNum 2), ("kills", .vNum 20)])]) "123456" "ind" "br" "CAREER")
        "error" = none ∧
    getField (parse_player_data (.vDict [("stats", .vDict [("matchesPlayed", .vNum (-5)),
        ("wins", .vNum 2), ("kills", .vNum 20)])]) "123456" "ind" "br" "CAREER")
        "matches_played" = some (.vNum (-5)) ∧
    ((-5 : ℚ) ≠ 0) ∧
    getField (parse_player_data (.vDict [("stats", .vDict [("matchesPlayed", .vNum (-5)),
        ("wins", .vNum 2), ("kills", .vNum 20)])]) "123456" "ind" "br" "CAREER")
        "win_rate" = some (.vNum 0) ∧
    round2 ((2 : ℚ) / (-5) * 100) = -40 ∧ ((0 : ℚ) ≠ -40) := by
  refine ⟨rfl, rfl, by norm_num, rfl, ?_, by norm_num⟩
  have h : (2 : ℚ) / (-5) * 100 = qmul (qdiv 2 (-5)) 100 := by
    rw [qdiv_eq, qmul_eq]
  rw [h]
  decide

/-- C1 witness: `matches_played = 10, wins = 4, kills = 20` gives
`win_rate = 40` and `kd_ratio = 3.33`; `matches_played = 5, wins = 5,
kills = 10` gives `kd_ratio = 10`. -/
theorem c1_ratio_witness :
    getField (parse_player_data (.vDict [("stats", .vDict [("matchesPlayed", .vNum 10),
        ("wins", .vNum 4), ("kills", .vNum 20)])]) "123456" "ind" "br" "CAREER")
        "win_rate" = some (.vNum (round2 ((4 : ℚ) / 10 * 100))) ∧
    getField (parse_player_data (.vDict [("stats", .vDict [("matchesPlayed", .vNum 10),
        ("wins", .vNum 4), ("kills", .vNum 20)])]) "123456" "ind" "br" "CAREER")
        "kd_ratio" = some (.vNum (round2 ((20 : ℚ) / max ((10 : ℚ) - 4) 1))) ∧
    round2 ((4 : ℚ) / 10 * 100) = 40 ∧
    round2 ((20 : ℚ) / max ((10 : ℚ) - 4) 1) = mkRat 333 100 ∧
    getField (parse_player_data (.vDict [("stats", .vDict [("matchesPlayed", .vNum 5),
        ("wins", .vNum 5), ("kills", .vNum 10)])]) "123456" "ind" "br" "CAREER")
        "kd_ratio" = some (.vNum 10) := by
  have h1 := c1_ratio_invariant (.vDict [("stats", .vDict [("matchesPlayed", .vNum 10),
    ("wins", .vNum 4), ("kills", .vNum 20)])]) "123456" "ind" "br" "CAREER"
    (.vNum 10) 10 rfl rfl rfl
  have h2 := c1_ratio_invariant (.vDict [("stats", .vDict [("matchesPlayed", .vNum 5),
    ("wins", .vNum 5), ("kills", .vNum 10)])]) "123456" "ind" "br" "CAREER"
    (.vNum 5) 5 rfl rfl rfl
  have hw1 := h1.2 (by norm_num) (.vNum 4) (.vNum 20) 4 20 rfl rfl rfl rfl
  have hw2 := h2.2 (by norm_num) (.vNum 5) (.vNum 10) 5 10 rfl rfl rfl rfl
  have e1 : round2 ((4 : ℚ) / 10 * 100) = 40 := by
    rw [show (4 : ℚ) / 10 * 100 = qmul (qdiv 4 10) 100 from by rw [qdiv_eq, qmul_eq]]
    decide
  have e2 : round2 ((20 : ℚ) / max ((10 : ℚ) - 4) 1) = mkRat 333 100 := by
    rw [show (20 : ℚ) / max ((10 : ℚ) - 4) 1 = qdiv 20 (max (qsub 10 4) 1) from by
      rw [qdiv_eq, qsub_eq]]
    decide
  have e3 : round2 ((10 : ℚ) / max ((5 : ℚ) - 5) 1) = 10 := by
    rw [show (10 : ℚ) / max ((5 : ℚ) - 5) 1 = qdiv 10 (max (qsub 5 5) 1) from by
      rw [qdiv_eq, qsub_eq]]
    decide
  refine ⟨hw1.1, hw1.2, e1, e2, ?_⟩
  rw [hw2.2, e3]

end FreeFire

namespace FreeFire

/-- C2: a well-formed payload (non-empty dict, no error status) whose
selected player payload is a dict lacking all of `basicInfo`,
`clanBasicInfo` and `stats` normalizes to the complete default record: every
numeric field 0, `name = "Unknown"`, `clan_name = "No Clan"`, ratios 0; in
particular the payload containing only `basicInfo: {}` yields that same
complete record. -/
theorem c2_missing_defaults (kvs pkvs : List (String × Val)) (u s g m : String)
    (hne : kvs ≠ []) (hst : statusIsError (Val.vDict kvs) = false)
    (hsel : (lookupD kvs "data").getD (Val.vDict kvs) = Val.vDict pkvs)
    (hb : lookupD pkvs "basicInfo" = none)
    (hc : lookupD pkvs "clanBasicInfo" = none)
    (hs : lookupD pkvs "stats" = none) :
    parse_player_data (Val.vDict kvs) u s g m = defaultRecord u s g m ∧
    parse_player_data (Val.vDict [("basicInfo", Val.vDict [])]) u s g m
      = defaultRecord u s g m ∧
    getField (defaultRecord u s g m) "name" = some (.vStr "Unknown") ∧
    getField (defaultRecord u s g m) "level" = some (.vNum 0) ∧
    getField (defaultRecord u s g m) "clan_name" = some (.vStr "No Clan") := by
  refine ⟨?_, rfl, rfl, rfl, rfl⟩
  have hcore := parseCore_dict kvs u s g m hne hst
  rw [hsel] at hcore
  unfold parse_player_data
  rw [hcore]
  have h2 : extractRecord (Val.vDict pkvs) u s g m = Except.ok (defaultRecord u s g m) := by
    simp only [extractRecord, subObj, fieldOf, hb, hc, hs, Option.getD_none]
    rfl
  rw [h2]
  rfl

/-- C2 witness: a payload with none of the sub-objects, and the
`basicInfo: {}` payload, both yield the complete default record. -/
theorem c2_missing_defaults_witness :
    parse_player_data (Val.vDict [("foo", Val.vNum 1)]) "123456" "ind" "br" "CAREER"
      = defaultRecord "123456" "ind" "br" "CAREER" ∧
    parse_player_data (Val.vDict [("basicInfo", Val.vDict [])]) "123456" "ind" "br" "CAREER"
      = defaultRecord "123456" "ind" "br" "CAREER" := by
  have h := c2_missing_defaults [("foo", Val.vNum 1)] [("foo", Val.vNum 1)]
    "123456" "ind" "br" "CAREER" (List.cons_ne_nil _ _) rfl rfl rfl rfl rfl
  exact ⟨h.1, h.2.1⟩

/-- C3 (amended): a dict payload whose `status` field is the string
`"error"` normalizes to the failure dict with message
`"No player data found or invalid UID"` (upper-case `No`; the claim quotes
the message with a lower-case `no`), never a partially-filled record. -/
theorem c3_status_error (kvs : List (String × Val)) (u s g m : String)
    (h : lookupD kvs "status" = some (.vStr "error")) :
    parse_player_data (Val.vDict kvs) u s g m
      = errDict "No player data found or invalid UID" := by
  have hne : kvs ≠ [] := by
    intro he
    subst he
    simp [lookupD] at h
  have hst : statusIsError (Val.vDict kvs) = true := by
    simp [statusIsError, h]
  unfold parse_player_data
  rw [parseCore_rejected]
  · rfl
  · right
    simp [isDict, hst]

/-- C3 counterexample: the message actually returned is
`"No player data found or invalid UID"`, which is not the string
`"no player data found or invalid UID"` quoted by the claim (the initial
letter is upper-case in the code). -/
theorem c3_status_error_counterexample :
    parse_player_data (Val.vDict [("status", Val.vStr "error")]) "123456" "ind" "br" "CAREER"
      = errDict "No player data found or invalid UID" ∧
    "No player data found or invalid UID" ≠ "no player data found or invalid UID" :=
  ⟨rfl, by decide⟩

/-- C3 witness: a payload with `status = "error"` (and other keys) yields
exactly the failure dict. -/
theorem c3_status_error_witness :
    parse_player_data (Val.vDict [("status", Val.vStr "error"), ("data", Val.vDict [])])
        "123456" "ind" "br" "CAREER"
      = errDict "No player data found or invalid UID" :=
  c3_status_error [("status", Val.vStr "error"), ("data", Val.vDict [])]
    "123456" "ind" "br" "CAREER" rfl

/-- C4: `parse_player_data` is total over arbitrary parsed JSON: either the
extraction body `parseCore` raises no exception and its value is returned
as-is, or it raises (`Except.error e`) and the exception is caught and
converted to the `{"error": "Data parsing error: " + detail}` failure dict --
no exception propagates to the caller. -/
theorem c4_exception_guard (data : Val) (u s g m : String) :
    (∃ e, parseCore data u s g m = Except.error e ∧
       parse_player_data data u s g m = errDict ("Data parsing error: " ++ e)) ∨
    (∃ v, parseCore data u s g m = Except.ok v ∧ parse_player_data data u s g m = v) :=
  parse_split data u s g m

end FreeFire

namespace FreeFire

/-- C5: the `/stats` handler reports the invalid-UID refusal -- for every
possible HTTP outcome `r`, i.e. without consulting the fetch -- whenever the
UID contains a non-digit character or is shorter than 6; and validation
passes (the fetch result is returned) exactly when the UID consists only of
decimal digits and has length at least 6. -/
theorem c5_uid_validation (uid server g m : String) (r : HttpResult) :
    ((¬ uid.toList.all Char.isDigit = true ∨ uid.length < 6) →
        player_stats uid server g m r = CommandOutcome.invalidUid) ∧
    (uid.toList.all Char.isDigit = true ∧ 6 ≤ uid.length →
        player_stats uid server g m r
          = CommandOutcome.fetched (get_player_stats uid server g m r)) := by
  constructor
  · intro h
    unfold player_stats
    rcases h with h | h
    · have hd : uid.toList.all Char.isDigit = false := by
        cases hd : uid.toList.all Char.isDigit
        · rfl
        · exact absurd hd h
      have hpd : pyIsdigit uid = false := by
        unfold pyIsdigit
        rw [hd]
        simp
      simp [hpd]
    · simp [h]
  · rintro ⟨hdig, hlen⟩
    unfold player_stats
    have hne : uid.isEmpty = false := by
      cases he : uid.isEmpty
      · rfl
      · exfalso
        have hs : uid = "" := (String.isEmpty_iff uid).mp he
        subst hs
        exact absurd hlen (by decide)
    have hpd : pyIsdigit uid = true := by
      unfold pyIsdigit
      rw [hne, hdig]
      rfl
    simp [hpd, Nat.not_lt.mpr hlen]

/-- C5 witness: `"12a456"` (non-digit) and `"12345"` (too short) are
refused regardless of the HTTP outcome; `"123456"` passes and the fetch
result is returned. -/
theorem c5_uid_validation_witness :
    player_stats "12a456" "ind" "br" "CAREER" (.response 200 .vNull)
      = CommandOutcome.invalidUid ∧
    player_stats "12345" "ind" "br" "CAREER" (.response 200 .vNull)
      = CommandOutcome.invalidUid ∧
    player_stats "123456" "ind" "br" "CAREER" (.response 404 .vNull)
      = CommandOutcome.fetched (get_player_stats "123456" "ind" "br" "CAREER"
          (.response 404 .vNull)) := by
  refine ⟨?_, ?_, ?_⟩
  · exact (c5_uid_validation "12a456" "ind" "br" "CAREER" (.response 200 .vNull)).1
      (Or.inl (by decide))
  · exact (c5_uid_validation "12345" "ind" "br" "CAREER" (.response 200 .vNull)).1
      (Or.inr (by decide))
  · exact (c5_uid_validation "123456" "ind" "br" "CAREER" (.response 404 .vNull)).2
      ⟨by decide, by decide⟩

/-- C6 counterexample: `"xx"` is not in the 14-code allow-list `SERVERS`,
yet the handler does not report any invalid-region failure: with a valid
UID the outbound call is made and its outcome determines the result (a 404
response gives the status-error dict; a 200 response gives a parsed
record), so the claimed "no network call is attempted" is false. -/
theorem c6_region_counterexample :
    "xx" ∉ SERVERS ∧
    player_stats "1234567" "xx" "br" "CAREER" (.response 404 .vNull)
      = CommandOutcome.fetched (errDict "API returned status 404") ∧
    player_stats "1234567" "xx" "br" "CAREER"
        (.response 200 (.vDict [("basicInfo", .vDict [])]))
      = CommandOutcome.fetched (defaultRecord "1234567" "xx" "br" "CAREER") :=
  ⟨by decide, rfl, rfl⟩

/-- C6 (amended): the stats variant performs no server validation at all:
for every server string -- member of the `SERVERS` allow-list or not -- a
syntactically valid UID leads straight to the fetch, whose result is
returned.  `SERVERS` is only displayed by the auxiliary example command. -/
theorem c6_no_region_validation (uid server g m : String) (r : HttpResult)
    (hdig : uid.toList.all Char.isDigit = true) (hlen : 6 ≤ uid.length) :
    player_stats uid server g m r
      = CommandOutcome.fetched (get_player_stats uid server g m r) := by
  unfold player_stats
  have hne : uid.isEmpty = false := by
    cases he : uid.isEmpty
    · rfl
    · exfalso
      have hs : uid = "" := (String.isEmpty_iff uid).mp he
      subst hs
      exact absurd hlen (by decide)
  have hpd : pyIsdigit uid = true := by
    unfold pyIsdigit
    rw [hne, hdig]
    rfl
  simp [hpd, Nat.not_lt.mpr hlen]

/-- C6 witness: the out-of-allow-list server `"zz"` still reaches the
fetch. -/
theorem c6_no_region_validation_witness :
    player_stats "1234567" "zz" "br" "CAREER" (.response 500 .vNull)
      = CommandOutcome.fetched (get_player_stats "1234567" "zz" "br" "CAREER"
          (.response 500 .vNull)) :=
  c6_no_region_validation "1234567" "zz" "br" "CAREER" (.response 500 .vNull)
    (by decide) (by decide)

/-- C7: on a non-error dict payload the normalizer extracts from the value
of the `data` key when present, and from the root object itself when
absent. -/
theorem c7_data_fallback (kvs : List (String × Val)) (u s g m : String)
    (hne : kvs ≠ []) (hst : statusIsError (Val.vDict kvs) = false) :
    (∀ d, lookupD kvs "data" = some d →
       parse_player_data (Val.vDict kvs) u s g m = wrapParse (extractRecord d u s g m)) ∧
    (lookupD kvs "data" = none →
       parse_player_data (Val.vDict kvs) u s g m
         = wrapParse (extractRecord (Val.vDict kvs) u s g m)) := by
  have hcore := parseCore_dict kvs u s g m hne hst
  constructor
  · intro d hd
    unfold parse_player_data
    rw [hcore, hd]
    rfl
  · intro hd
    unfold parse_player_data
    rw [hcore, hd]
    rfl

/-- C7 witness: with a `data` key the nested object is extracted; without
one the root object is extracted -- the same player payload gives the same
result through either route. -/
theorem c7_data_fallback_witness :
    parse_player_data (.vDict [("data", .vDict [("basicInfo", .vDict [])])])
        "123456" "ind" "br" "CAREER"
      = wrapParse (extractRecord (.vDict [("basicInfo", .vDict [])])
          "123456" "ind" "br" "CAREER") ∧
    parse_player_data (.vDict [("basicInfo", .vDict [])]) "123456" "ind" "br" "CAREER"
      = wrapParse (extractRecord (.vDict [("basicInfo", .vDict [])])
          "123456" "ind" "br" "CAREER") := by
  constructor
  · exact (c7_data_fallback [("data", .vDict [("basicInfo", .vDict [])])]
      "123456" "ind" "br" "CAREER" (List.cons_ne_nil _ _) rfl).1
      (.vDict [("basicInfo", .vDict [])]) rfl
  · exact (c7_data_fallback [("basicInfo", .vDict [])]
      "123456" "ind" "br" "CAREER" (List.cons_ne_nil _ _) rfl).2 rfl

/-- C8: a non-200 HTTP status yields the status-error dict carrying that
status code -- for every body, so the body is never handed to the
normalizer -- while a 200 response hands its body to `parse_player_data`.
The embedding performs exactly one fetch per invocation, so no retry
occurs. -/
theorem c8_status_handling (st : Nat) (body : Val) (u s g m : String) :
    (st ≠ 200 → get_player_stats u s g m (.response st body)
        = errDict ("API returned status " ++ toString st)) ∧
    get_player_stats u s g m (.response 200 body) = parse_player_data body u s g m := by
  constructor
  · intro h
    unfold get_player_stats
    simp [h]
  · rfl

/-- C8 witness: status 404 yields `API returned status 404`. -/
theorem c8_status_handling_witness :
    get_player_stats "123456" "ind" "br" "CAREER" (.response 404 .vNull)
      = errDict "API returned status 404" :=
  (c8_status_handling 404 .vNull "123456" "ind" "br" "CAREER").1 (by decide)

/-- C9: every successful record carries `uid` and `matchmode` unchanged and
`server` and `gamemode` upper-cased (`pyUpper` is Python `str.upper`,
provably equal to `String.toUpper` by `pyUpper_eq`). -/
theorem c9_request_passthrough (data : Val) (u s g m : String)
    (herr : getField (parse_player_data data u s g m) "error" = none) :
    getField (parse_player_data data u s g m) "uid" = some (.vStr u) ∧
    getField (parse_player_data data u s g m) "server" = some (.vStr (pyUpper s)) ∧
    getField (parse_player_data data u s g m) "gamemode" = some (.vStr (pyUpper g)) ∧
    getField (parse_player_data data u s g m) "matchmode" = some (.vStr m) := by
  rcases parse_success_shape data u s g m herr with ⟨b, c, st, mp, hmp, hcase⟩
  rcases hcase with ⟨_, heq⟩ | ⟨_, w, k, _, _, heq⟩ <;>
    rw [heq] <;> exact ⟨rfl, rfl, rfl, rfl⟩

/-- C9 witness: for input `server = "ind"`, `gamemode = "br"`,
`matchmode = "RANKED"` the record shows `IND`, `BR`, `RANKED` and the uid
unchanged. -/
theorem c9_request_passthrough_witness :
    getField (parse_player_data (.vDict [("basicInfo", .vDict [])])
        "123456" "ind" "br" "RANKED") "uid" = some (.vStr "123456") ∧
    getField (parse_player_data (.vDict [("basicInfo", .vDict [])])
        "123456" "ind" "br" "RANKED") "server" = some (.vStr "IND") ∧
    getField (parse_player_data (.vDict [("basicInfo", .vDict [])])
        "123456" "ind" "br" "RANKED") "gamemode" = some (.vStr "BR") ∧
    getField (parse_player_data (.vDict [("basicInfo", .vDict [])])
        "123456" "ind" "br" "RANKED") "matchmode" = some (.vStr "RANKED") := by
  exact c9_request_passthrough (.vDict [("basicInfo", .vDict [])])
    "123456" "ind" "br" "RANKED" rfl

/-- C10: every value returned by `parse_player_data` and by
`get_player_stats` is exactly one of the two disjoint shapes: the failure
dict `{"error": msg}` (which contains the key `error`), or a dict carrying
exactly the 21 documented record keys and no `error` key -- so the caller's
`"error" in player_data` test classifies every result correctly. -/
theorem c10_result_shape (data : Val) (r : HttpResult) (u s g m : String) :
    resultWellShaped (parse_player_data data u s g m) ∧
    resultWellShaped (get_player_stats u s g m r) ∧
    (∀ e, getField (errDict e) "error" = some (.vStr e)) ∧
    recordKeys.length = 21 := by
  have hparse : ∀ d : Val, resultWellShaped (parse_player_data d u s g m) := by
    intro d
    rcases parse_split d u s g m with ⟨e, hc, hp⟩ | ⟨v, hc, hp⟩
    · exact Or.inl ⟨_, hp⟩
    · unfold parseCore at hc
      split at hc
      · simp only [Except.ok.injEq] at hc
        rw [hp, ← hc]
        exact Or.inl ⟨_, rfl⟩
      · split at hc
        case _ kvs =>
          rcases extractRecord_ok_shape _ _ _ _ _ _ hc with
            ⟨pkvs, b, c, st, _, _, _, _, mp, _, hcase⟩
          rcases hcase with ⟨_, rfl⟩ | ⟨_, w, k, _, _, rfl⟩
          · rw [hp]
            exact Or.inr (recordOf_shape u s g m b c st 0 0)
          · rw [hp]
            exact Or.inr (recordOf_shape u s g m b c st _ _)
        case _ => exact Except.noConfusion hc
  refine ⟨hparse data, ?_, fun e => rfl, rfl⟩
  cases r with
  | response st body =>
      by_cases h : (st == 200) = true
      · simp only [get_player_stats, if_pos h]
        exact hparse body
      · simp only [get_player_stats, if_neg h]
        exact Or.inl ⟨_, rfl⟩
  | clientError msg => exact Or.inl ⟨_, rfl⟩
  | timedOut => exact Or.inl ⟨_, rfl⟩
  | otherExc msg => exact Or.inl ⟨_, rfl⟩

end FreeFire
